import Mathlib

/-!
Verification of the collision-dash-app dashboard (src/app.py) against its
natural-language specification.

The source file contains two concatenated copies of the application; the
second copy re-executes at module level and rebinds every name
(normalize_vehicle, df, the option lists, app, apply_search_text,
update_report), so the second copy is the effective program.  All
definitions below embed the second (effective) copy; where the two copies
differ this is noted in the doc comment.

Modelling conventions:
 - a nullable cell (Python None / pandas NaN) is an Option,
 - a pandas DataFrame of the cleaned collisions data is a List Row,
 - Python substring tests (pat in s) are strContains,
 - Python str.upper is pyUpper (the data is ASCII),
 - pandas Series comparisons with NaN are False, so NaN rows drop out of
   every equality or isin filter, which the Option matches below encode.
-/

/-- Whether pat occurs as a contiguous sublist starting at some position
of l. -/
def containsAux (pat : List Char) : List Char → Bool
  | [] => pat.isEmpty
  | c :: cs => pat.isPrefixOf (c :: cs) || containsAux pat cs

/-- Python substring test: pat in s. -/
def strContains (s pat : String) : Bool :=
  containsAux pat.toList s.toList

/-- Python str.isdigit for ASCII strings: nonempty and all digits. -/
def pyIsDigit (t : String) : Bool :=
  !t.toList.isEmpty && t.toList.all Char.isDigit

/-- Python int(token) for a digit string. -/
def strToNat (t : String) : Nat :=
  t.toList.foldl (fun a c => a * 10 + (c.toNat - 48)) 0

/-- Python str.upper for ASCII data: upper-case every character. -/
def pyUpper (s : String) : String :=
  String.mk (s.toList.map Char.toUpper)

/-- Accumulator for pySplit: cur holds the current word reversed. -/
def pySplitAux (cur : List Char) : List Char → List String
  | [] => if cur.isEmpty then [] else [String.mk cur.reverse]
  | c :: cs =>
    if c.isWhitespace then
      if cur.isEmpty then pySplitAux [] cs
      else String.mk cur.reverse :: pySplitAux [] cs
    else pySplitAux (c :: cur) cs

/-- Python str.split with no argument: split on whitespace runs, dropping
empty pieces. -/
def pySplit (s : String) : List String :=
  pySplitAux [] s.toList

/-- The substring-rule chain of normalize_vehicle applied to the
upper-cased string (src/app.py lines 309-338, the effective second copy;
the shadowed first copy at lines 17-46 differed only in returning
"MOTORcycle" for the motorcycle rule). -/
def vehicleChain (s : String) : String :=
  if strContains s "AMB" || strContains s "AMBUL" then "AMBULANCE"
  else if strContains s "TAXI" then "TAXI"
  else if strContains s "BUS" then "BUS"
  else if strContains s "MOTORCYCLE" || strContains s "SCOOTER" || strContains s "MOTORBIKE" then "MOTORCYCLE"
  else if strContains s "BICYCLE" || strContains s "BIKE" then "BICYCLE"
  else if strContains s "SUV" || strContains s "STATION WAGON" then "SUV"
  else if strContains s "PICK" || strContains s "PICK-UP" || strContains s "PICKUP" then "TRUCK/VAN"
  else if strContains s "TRUCK" || strContains s "VAN" then "TRUCK/VAN"
  else if strContains s "SEDAN" || strContains s "4 DOOR" || strContains s "4-DOOR" || strContains s "2 DOOR" || strContains s "2-DOOR" then "CAR"
  else "OTHER"

/-- normalize_vehicle (src/app.py lines 306-338): pd.isna(v) is True
exactly for a null cell (a string, even empty, is never NA), in which case
UNKNOWN; otherwise the upper-cased string runs through the ordered
substring rules. -/
def normalize_vehicle : Option String → String
  | none => "UNKNOWN"
  | some v => vehicleChain (pyUpper v)

/-- The ordered borough list BOROUGHS (src/app.py line 455). -/
def BOROUGHS : List String :=
  ["BRONX", "BROOKLYN", "MANHATTAN", "QUEENS", "STATEN ISLAND"]

/-- The year-extraction loop of apply_search_text (src/app.py lines
465-471): scan the whitespace tokens; the first 4-digit token whose value
lies in 2012..2030 is taken and the scan stops; a 4-digit token outside
the range is passed over and the scan continues. -/
def findYear : List String → Option Nat
  | [] => none
  | t :: ts =>
    if pyIsDigit t && t.length == 4 then
      let y := strToNat t
      if 2012 ≤ y && y ≤ 2030 then some y else findYear ts
    else findYear ts

/-- Borough extraction of apply_search_text (src/app.py line 463): the
first member of BOROUGHS occurring as a substring of the upper-cased
text. -/
def boroughFromText (tu : String) : Option String :=
  BOROUGHS.find? (fun b => strContains tu b)

/-- Injury extraction of apply_search_text (src/app.py lines 473-479). -/
def injuryFromText (tu : String) : Option String :=
  if strContains tu "PEDESTRIAN" then some "PEDESTRIAN"
  else if strContains tu "CYCLIST" || strContains tu "BICYCLE" then some "CYCLIST"
  else if strContains tu "MOTORIST" || strContains tu "DRIVER" then some "MOTORIST"
  else none

/-- The extraction part of apply_search_text (src/app.py lines 457-479):
the (borough, year, injury) hints parsed from the free text.  A Python
falsy text (None or the empty string) yields the all-null triple. -/
def parseSearchText (text : Option String) : Option String × Option Nat × Option String :=
  match text with
  | none => (none, none, none)
  | some t =>
    if t.toList.isEmpty then (none, none, none)
    else
      let tu := pyUpper t
      (boroughFromText tu, findYear (pySplit tu), injuryFromText tu)

/-- One record of cleaned_collisions_persons.csv, restricted to the
columns the dashboard reads.  Every CSV cell may be NaN, hence Option. -/
structure CsvRow where
  borough : Option String
  year : Option Nat
  vehicleTypeCode1 : Option String
  contributingFactor : Option String
  injuryType : Option String
  latitude : Option Int
  longitude : Option Int
  crashDatetime : Option String
deriving DecidableEq

/-- A record of the loaded DataFrame df: the CSV columns plus the derived
VEHICLE_CATEGORY column (src/app.py line 340). -/
structure Row extends CsvRow where
  vehicleCategory : String
deriving DecidableEq

/-- The load-time derivation for one record (src/app.py line 340):
VEHICLE_CATEGORY is computed from VEHICLE TYPE CODE 1; every CSV column,
YEAR included, passes through unchanged.  In particular the line deriving
YEAR from CRASH_DATETIME is commented out in the source (src/app.py lines
300-301), so no such derivation happens. -/
def loadRow (r : CsvRow) : Row :=
  { toCsvRow := r, vehicleCategory := normalize_vehicle r.vehicleTypeCode1 }

/-- The whole loaded record set. -/
def loadRows (rs : List CsvRow) : List Row :=
  rs.map loadRow

/-- Spec-side reference, not in the code: the calendar year of an
ISO-format timestamp string, i.e. its first four digits, modelling the
pandas expression df["CRASH_DATETIME"].dt.year that the spec describes
and the source keeps only as the commented-out line 301. -/
def tsYear (s : String) : Option Nat :=
  if (s.toList.take 4).length = 4 && (s.toList.take 4).all Char.isDigit then
    some (strToNat (String.mk (s.toList.take 4)))
  else none

/-- The values of a dcc.Dropdown with multi=True: Python None, or a list
(possibly empty).  Python treats None and the empty list as falsy. -/
def pyTruthy (o : Option (List α)) : Bool :=
  match o with
  | none => false
  | some l => !l.isEmpty

/-- A pandas Series.isin test on one cell: NaN compares unequal to every
list member, so a null cell never passes. -/
def isinCell [BEq α] (cell : Option α) (vals : List α) : Bool :=
  match cell with
  | none => false
  | some v => vals.contains v

/-- The five dropdown States the callback receives (src/app.py lines
502-506). -/
structure Filters where
  boroughs : Option (List String)
  years : Option (List Nat)
  vehicles : Option (List String)
  factors : Option (List String)
  injuries : Option (List String)
deriving DecidableEq

/-- The dropdown-filter block of update_report (src/app.py lines
514-523): each truthy dropdown value narrows dff with an isin mask;
each mask builds a new frame, dff is rebound, nothing is written in
place. -/
def filterRows (dff : List Row) (f : Filters) : List Row :=
  let d1 := if pyTruthy f.boroughs then dff.filter (fun r => isinCell r.borough (f.boroughs.getD [])) else dff
  let d2 := if pyTruthy f.years then d1.filter (fun r => isinCell r.year (f.years.getD [])) else d1
  let d3 := if pyTruthy f.vehicles then d2.filter (fun r => isinCell (some r.vehicleCategory) (f.vehicles.getD [])) else d2
  let d4 := if pyTruthy f.factors then d3.filter (fun r => isinCell r.contributingFactor (f.factors.getD [])) else d3
  if pyTruthy f.injuries then d4.filter (fun r => isinCell r.injuryType (f.injuries.getD [])) else d4

/-- apply_search_text (src/app.py lines 457-489): parse the (borough,
year, injury) hints from the text, then narrow the frame by each non-null
hint with an equality mask (a null BOROUGH, YEAR or INJURY_TYPE cell
compares unequal, so such rows drop out).  The early return in the source for
falsy text coincides with parseSearchText returning the all-null triple,
under which no mask is applied and df_out equals df_in. -/
def apply_search_text (dfIn : List Row) (text : Option String) :
    List Row × Option String × Option Nat × Option String :=
  let hints := parseSearchText text
  let d1 := match hints.1 with
    | some bv => dfIn.filter (fun r => r.borough == some bv)
    | none => dfIn
  let d2 := match hints.2.1 with
    | some yv => d1.filter (fun r => r.year == some yv)
    | none => d1
  let d3 := match hints.2.2 with
    | some iv => d2.filter (fun r => r.injuryType == some iv)
    | none => d2
  (d3, hints)

/-- pandas groupby(col).size().reset_index: the distinct non-null keys,
each with the number of rows carrying it (groupby drops NaN keys). -/
def groupCounts [DecidableEq α] (keys : List α) : List (α × Nat) :=
  keys.dedup.map (fun k => (k, keys.count k))

/-- A plotly figure as far as the claims of the spec observe it: the no-data
scatter placeholder with its title, or a populated chart with the data
that feeds it. -/
inductive Fig where
  | noData (title : String)
  | bar (data : List (String × Nat)) (title : String)
  | line (data : List (Nat × Nat)) (title : String)
  | densityMap (sample : List Row) (title : String)
deriving DecidableEq

/-- Deterministic selection of n rows: rotate by the seed, then take n.
Abstracts the seeded pandas row sampler: a pure function of (seed, n,
rows) returning min n (length rows) rows of the input. -/
def sampleTake (seed n : Nat) (rows : List Row) : List Row :=
  (rows.rotate seed).take n

/-- DataFrame.sample(n, random_state): when random_state is given the
draw depends only on it; when it is omitted pandas draws from the global
numpy RNG, modelled by the ambient state rngState. -/
def pandasSample (n : Nat) (randomState : Option Nat) (rngState : Nat) (rows : List Row) : List Row :=
  sampleTake (randomState.getD rngState) n rows

/-- update_report (src/app.py lines 510-585, the effective second copy;
the shadowed first copy sampled min 5000 rows with no random_state).
The first argument is the module-level df when the callback fires and the
first component of the result is the module-level df afterwards: the body
reads df once into the copy dff (line 511) and every later operation is a
non-inplace operation rebinding dff, so df is handed back as it came.
rngState is the ambient numpy RNG state; the map sampler passes
random_state=0, so rngState is never consulted. -/
def update_report (base : List Row) (rngState : Nat) (f : Filters) (text : Option String) :
    List Row × Fig × Fig × Fig :=
  let dff := base
  let dff := filterRows dff f
  let dff := (apply_search_text dff text).1
  if dff.isEmpty then
    let e := Fig.noData "No data found for selected filters."
    (base, e, e, e)
  else
    let bar_df := List.insertionSort (fun a b => b.2 ≤ a.2) (groupCounts (dff.filterMap (fun r => r.borough)))
    let fig_bar := Fig.bar bar_df "Crashes by Borough"
    let time_df := List.insertionSort (fun a b => a.1 ≤ b.1) (groupCounts (dff.filterMap (fun r => r.year)))
    let fig_line := Fig.line time_df "Crashes Over Time"
    let map_df := dff.filter (fun r => r.latitude.isSome && r.longitude.isSome)
    let fig_map :=
      if map_df.isEmpty then Fig.noData "No location data available."
      else Fig.densityMap (pandasSample (min 8000 map_df.length) (some 0) rngState map_df)
             "Crash Density Heatmap (sample)"
    (base, fig_bar, fig_line, fig_map)

/-- A raw DataFrame column as an association value: one optional cell per
record. -/
abbrev Column := List (Option String)

/-- A DataFrame at the column level, for the load step: named columns as
read from the CSV (a name absent from cols is a column the CSV lacks). -/
structure RawFrame where
  cols : List (String × Column)
deriving DecidableEq

/-- Column access df[name]: a present column, or the KeyError pandas
raises when the name is absent.  There is no presence check anywhere in
the load step. -/
def getCol (d : RawFrame) (name : String) : Except String Column :=
  match d.cols.lookup name with
  | some c => Except.ok c
  | none => Except.error ("KeyError: " ++ name)

/-- Column assignment df[name] = c: replace the column if present,
append it otherwise. -/
def setCol : List (String × Column) → String → Column → List (String × Column)
  | [], name, c => [(name, c)]
  | (n, v) :: rest, name, c =>
    if n = name then (name, c) :: rest else (n, v) :: setCol rest name c

/-- sorted(series.dropna().unique()): drop the null cells, deduplicate,
sort ascending. -/
def uniqueSorted (c : Column) : List String :=
  List.insertionSort (fun a b => a ≤ b) (c.filterMap id).dedup

/-- What the module-level load step produces besides the frame: the five
dropdown option value lists (src/app.py lines 345-368; labels are
display-only and omitted). -/
structure LoadResult where
  frame : RawFrame
  boroughOptions : List String
  yearOptions : List Nat
  vehicleOptions : List String
  factorOptions : List String
  injuryOptions : List String
deriving DecidableEq

/-- The module-level load step at the column level (src/app.py lines
340-368): derive VEHICLE_CATEGORY from VEHICLE TYPE CODE 1, then build
the five dropdown option lists.  Each column access is getCol, so the
first absent column aborts the load with a KeyError. -/
def loadStep (d : RawFrame) : Except String LoadResult := do
  let vt ← getCol d "VEHICLE TYPE CODE 1"
  let d := RawFrame.mk (setCol d.cols "VEHICLE_CATEGORY" (vt.map (fun cell => some (normalize_vehicle cell))))
  let bor ← getCol d "BOROUGH"
  let yr ← getCol d "YEAR"
  let vc ← getCol d "VEHICLE_CATEGORY"
  let fac ← getCol d "CONTRIBUTING FACTOR VEHICLE 1"
  let inj ← getCol d "INJURY_TYPE"
  pure { frame := d,
         boroughOptions := uniqueSorted bor,
         yearOptions := (uniqueSorted yr).map strToNat,
         vehicleOptions := uniqueSorted vc,
         factorOptions := uniqueSorted fac,
         injuryOptions := uniqueSorted inj }

/-- Every year the token scan returns lies in the hard-coded 2012..2030
window. -/
theorem findYear_range (ts : List String) (y : Nat) (h : findYear ts = some y) :
    2012 ≤ y ∧ y ≤ 2030 := by
  induction ts with
  | nil => simp [findYear] at h
  | cons t rest ih =>
    unfold findYear at h
    split at h
    · dsimp only at h
      split at h
      · rename_i hr
        injection h with hy
        subst hy
        simpa [Bool.and_eq_true, decide_eq_true_eq] using hr
      · exact ih h
    · exact ih h

/-- C2 counterexample: the empty string is not NA, matches no substring
rule, and normalizes to OTHER, not UNKNOWN, refuting the claim at the
concrete input "". -/
theorem normalize_empty_cex :
    normalize_vehicle (some "") = "OTHER" ∧ normalize_vehicle (some "") ≠ "UNKNOWN" := by
  decide

/-- C2 (amended): the normalizer returns UNKNOWN for a null input, and
OTHER for the empty-string input (the empty string is not NA and matches
no rule). -/
theorem normalize_null_unknown_empty_other :
    normalize_vehicle none = "UNKNOWN" ∧ normalize_vehicle (some "") = "OTHER" := by
  decide

/-- C3: for every non-null input whose upper-casing contains MOTORCYCLE,
SCOOTER or MOTORBIKE while none of the earlier ambulance, taxi or bus
rules fires, the effective normalizer returns exactly MOTORCYCLE. -/
theorem normalize_motorcycle_rule (s : String)
    (h1 : (strContains (pyUpper s) "AMB" || strContains (pyUpper s) "AMBUL") = false)
    (h2 : strContains (pyUpper s) "TAXI" = false)
    (h3 : strContains (pyUpper s) "BUS" = false)
    (h4 : (strContains (pyUpper s) "MOTORCYCLE" || strContains (pyUpper s) "SCOOTER" ||
           strContains (pyUpper s) "MOTORBIKE") = true) :
    normalize_vehicle (some s) = "MOTORCYCLE" := by
  simp [normalize_vehicle, vehicleChain, h1, h2, h3, h4]

/-- C3 witness: the rule fires on the concrete input "Scooter". -/
theorem normalize_motorcycle_rule_witness :
    normalize_vehicle (some "Scooter") = "MOTORCYCLE" :=
  normalize_motorcycle_rule "Scooter" (by decide) (by decide) (by decide) (by decide)

/-- C4: every raw string containing TAXI (after upper-casing) normalizes
to TAXI provided the earlier ambulance rule does not fire, and on the
concrete input "AMBULANCE TAXI SERVICE" the ambulance rule wins because
it is checked first. -/
theorem normalize_taxi_rule_order :
    (∀ s : String,
       (strContains (pyUpper s) "AMB" || strContains (pyUpper s) "AMBUL") = false →
       strContains (pyUpper s) "TAXI" = true →
       normalize_vehicle (some s) = "TAXI") ∧
    normalize_vehicle (some "AMBULANCE TAXI SERVICE") = "AMBULANCE" := by
  constructor
  · intro s h1 h2
    simp [normalize_vehicle, vehicleChain, h1, h2]
  · decide

/-- C4 witness: the taxi rule fires on the concrete input
"Yellow taxi cab". -/
theorem normalize_taxi_rule_witness :
    normalize_vehicle (some "Yellow taxi cab") = "TAXI" :=
  normalize_taxi_rule_order.1 "Yellow taxi cab" (by decide) (by decide)

/-- C5: the query-text parser returns the all-null triple on null input,
the triple (BROOKLYN, 2022, PEDESTRIAN) on "Brooklyn 2022 pedestrian
crashes", and (BRONX, null, CYCLIST) on "cyclist in the bronx". -/
theorem parseSearchText_examples :
    parseSearchText none = (none, none, none) ∧
    parseSearchText (some "Brooklyn 2022 pedestrian crashes") =
      (some "BROOKLYN", some 2022, some "PEDESTRIAN") ∧
    parseSearchText (some "cyclist in the bronx") = (some "BRONX", none, some "CYCLIST") := by
  decide

/-- C6 counterexample: a concrete record whose year cell is null and
whose crash timestamp "2020-05-06 14:30:00" is parseable with calendar
year 2020 still loads with a null year: the load step never derives the
year from the timestamp, refuting the claim at this record. -/
theorem year_derivation_cex :
    (loadRow (CsvRow.mk (some "QUEENS") none (some "Sedan") none (some "MOTORIST")
        (some 40) (some (-73)) (some "2020-05-06 14:30:00"))).year = none ∧
    tsYear "2020-05-06 14:30:00" = some 2020 ∧
    (loadRow (CsvRow.mk (some "QUEENS") none (some "Sedan") none (some "MOTORIST")
        (some 40) (some (-73)) (some "2020-05-06 14:30:00"))).year ≠ some 2020 := by
  decide

/-- C6 (amended): the load step never derives the year from the crash
timestamp (the derivation is only a commented-out line in the source);
every loaded year equals the year cell of the CSV record, so an absent
year stays null whatever the timestamp holds. -/
theorem load_year_passthrough : ∀ r : CsvRow, (loadRow r).year = r.year :=
  fun _ => rfl

/-- C10: every year hint the parser extracts lies in 2012..2030; a
4-digit token outside that range is passed over with the scan continuing
on the later tokens, as on the concrete text "1999 2015 crashes" where
1999 is skipped and 2015 is extracted. -/
theorem year_hint_range_and_skip :
    (∀ (text : Option String) (y : Nat),
       (parseSearchText text).2.1 = some y → 2012 ≤ y ∧ y ≤ 2030) ∧
    (∀ (t : String) (ts : List String),
       pyIsDigit t = true →
       t.length = 4 →
       ¬(2012 ≤ strToNat t ∧ strToNat t ≤ 2030) →
       findYear (t :: ts) = findYear ts) ∧
    (parseSearchText (some "1999 2015 crashes")).2.1 = some 2015 := by
  refine ⟨?_, ?_, by decide⟩
  · intro text y h
    cases text with
    | none => simp [parseSearchText] at h
    | some t =>
      cases ht : t.toList.isEmpty with
      | true =>
        have hnil : t.data = [] := by simpa using ht
        simp [parseSearchText, hnil] at h
      | false =>
        simp only [parseSearchText, ht, Bool.false_eq_true, if_false] at h
        exact findYear_range _ _ h
  · intro t ts hdig hlen hrange
    simp [findYear, hdig, hlen, hrange]

/-- C10 witness: the range bound applied to the concrete text "2022
crashes", and the skip rule applied to the concrete token 1999 followed
by 2015. -/
theorem year_hint_witness :
    (2012 ≤ 2022 ∧ 2022 ≤ 2030) ∧ findYear ["1999", "2015"] = findYear ["2015"] :=
  ⟨year_hint_range_and_skip.1 (some "2022 crashes") 2022 (by decide),
   year_hint_range_and_skip.2.1 "1999" ["2015"] (by decide) (by decide) (by decide)⟩

/-- A conditional isin mask narrows a frame to a sublist of itself. -/
theorem ite_filter_sublist (c : Prop) [Decidable c] (p : Row → Bool) (l : List Row) :
    (if c then l.filter p else l).Sublist l := by
  split
  · exact List.filter_sublist l
  · exact List.Sublist.refl l

/-- The dropdown-filter block returns a sublist of the frame it was
given: every surviving record is a record of the input, unchanged. -/
theorem filterRows_sublist (d : List Row) (f : Filters) : (filterRows d f).Sublist d := by
  unfold filterRows
  dsimp only
  exact (ite_filter_sublist _ _ _).trans
    ((ite_filter_sublist _ _ _).trans
      ((ite_filter_sublist _ _ _).trans
        ((ite_filter_sublist _ _ _).trans (ite_filter_sublist _ _ _))))

/-- The search-text masks return a sublist of the frame they were
given. -/
theorem apply_search_text_sublist (d : List Row) (t : Option String) :
    ((apply_search_text d t).1).Sublist d := by
  unfold apply_search_text
  dsimp only
  rcases hps : parseSearchText t with ⟨b, y, i⟩
  simp only [hps]
  cases b <;> cases y <;> cases i <;>
    first
      | exact List.Sublist.refl d
      | exact List.filter_sublist d
      | exact (List.filter_sublist _).trans (List.filter_sublist d)
      | exact (List.filter_sublist _).trans
          ((List.filter_sublist _).trans (List.filter_sublist d))

/-- C9: a report request leaves the module-level record set exactly as it
was (the callback reads df into a copy and every operation is
non-inplace), and the working subset it aggregates is a sublist of the
base, so every record it touches is a base record with every field
unchanged. -/
theorem update_report_preserves_base :
    ∀ (base : List Row) (rng : Nat) (f : Filters) (text : Option String),
      (update_report base rng f text).1 = base ∧
      ((apply_search_text (filterRows base f) text).1).Sublist base := by
  intro base rng f text
  refine ⟨?_, (apply_search_text_sublist _ _).trans (filterRows_sublist _ _)⟩
  unfold update_report
  dsimp only
  split <;> rfl

/-- C7: when the structured and free-text filters leave an empty subset,
the callback returns the explicit no-data placeholder for all three
views; being a total function it raises nothing. -/
theorem empty_subset_no_data :
    ∀ (base : List Row) (rng : Nat) (f : Filters) (text : Option String),
      (apply_search_text (filterRows base f) text).1 = [] →
      (update_report base rng f text).2 =
        (Fig.noData "No data found for selected filters.",
         Fig.noData "No data found for selected filters.",
         Fig.noData "No data found for selected filters.") := by
  intro base rng f text h
  unfold update_report
  dsimp only
  rw [h]
  rfl

/-- C7 witness: the no-data triple on the concrete empty base with no
filters and no text. -/
theorem empty_subset_no_data_witness :
    (update_report [] 0 (Filters.mk none none none none none) none).2 =
      (Fig.noData "No data found for selected filters.",
       Fig.noData "No data found for selected filters.",
       Fig.noData "No data found for selected filters.") :=
  empty_subset_no_data [] 0 (Filters.mk none none none none none) none (by rfl)

/-- The abstract seeded sampler returns min n (length rows) rows. -/
theorem sample_length (n : Nat) (st : Option Nat) (rng : Nat) (rows : List Row) :
    (pandasSample n st rng rows).length = min n rows.length := by
  simp [pandasSample, sampleTake, List.length_take, List.length_rotate]

/-- C1: the geospatial view never carries more than the configured cap of
8000 sampled points, and the whole report, the map sample included, is
independent of the ambient RNG state because the sampler is called with
the fixed random_state 0 - two runs on the same inputs return the same
sample. -/
theorem mapSample_cap_and_seed_fixed :
    (∀ (base : List Row) (rng : Nat) (f : Filters) (text : Option String)
       (s : List Row) (title : String),
       (update_report base rng f text).2.2.2 = Fig.densityMap s title → s.length ≤ 8000) ∧
    (∀ (base : List Row) (rng1 rng2 : Nat) (f : Filters) (text : Option String),
       update_report base rng1 f text = update_report base rng2 f text) := by
  constructor
  · intro base rng f text s title h
    unfold update_report at h
    dsimp only at h
    split at h
    · simp at h
    · dsimp only at h
      split at h
      · simp at h
      · injection h with h1 h2
        rw [← h1, sample_length]
        omega
  · intro base rng1 rng2 f text
    rfl

/-- A concrete loaded record with coordinates, for the C1 witness. -/
def wrow : Row :=
  loadRow (CsvRow.mk (some "QUEENS") (some 2020) (some "Sedan") none (some "MOTORIST")
    (some 40) (some (-73)) none)

/-- C1 witness: on the concrete one-record base the map figure is a
density map whose sample obeys the cap. -/
theorem mapSample_cap_witness : [wrow].length ≤ 8000 :=
  mapSample_cap_and_seed_fixed.1 [wrow] 0 (Filters.mk none none none none none) none
    [wrow] "Crash Density Heatmap (sample)" (by rfl)

/-- Assigning one column leaves the lookup of every other column name
unchanged. -/
theorem lookup_setCol (cols : List (String × Column)) (name m : String) (c : Column)
    (h : m ≠ name) : List.lookup m (setCol cols name c) = List.lookup m cols := by
  induction cols with
  | nil =>
    have hm : (m == name) = false := by simpa [beq_iff_eq] using h
    simp [setCol, List.lookup, hm]
  | cons p rest ih =>
    obtain ⟨n, v⟩ := p
    by_cases hn : n = name
    · subst hn
      have hm : (m == n) = false := by simpa [beq_iff_eq] using h
      simp [setCol, List.lookup, hm]
    · cases hnm : (m == n) <;> simp [setCol, hn, List.lookup, hnm, ih]

/-- Assigning a column makes its own lookup return it. -/
theorem lookup_setCol_self (cols : List (String × Column)) (name : String) (c : Column) :
    List.lookup name (setCol cols name c) = some c := by
  induction cols with
  | nil => simp [setCol, List.lookup]
  | cons p rest ih =>
    obtain ⟨n, v⟩ := p
    by_cases hn : n = name
    · subst hn
      simp [setCol, List.lookup]
    · have hm : (name == n) = false := by simpa [beq_iff_eq] using (Ne.symm hn)
      simp [setCol, hn, List.lookup, hm, ih]

/-- C8 (amended): a missing expected column is fatal to the load step; no
default is substituted - the first absent column among the five the load
reads aborts it with a KeyError. -/
theorem missing_column_fatal :
    ∀ d : RawFrame,
      (List.lookup "VEHICLE TYPE CODE 1" d.cols = none ∨
       List.lookup "BOROUGH" d.cols = none ∨
       List.lookup "YEAR" d.cols = none ∨
       List.lookup "CONTRIBUTING FACTOR VEHICLE 1" d.cols = none ∨
       List.lookup "INJURY_TYPE" d.cols = none) →
      (loadStep d).isOk = false := by
  intro d hmiss
  cases h1 : List.lookup "VEHICLE TYPE CODE 1" d.cols with
  | none => simp [loadStep, getCol, h1, bind, Except.bind, Except.isOk, Except.toBool]
  | some vt =>
    cases h2 : List.lookup "BOROUGH" d.cols with
    | none =>
      simp [loadStep, getCol, h1, h2, bind, Except.bind, Except.isOk, Except.toBool,
        lookup_setCol _ _ _ _ (by decide : ("BOROUGH" : String) ≠ "VEHICLE_CATEGORY")]
    | some bor =>
      cases h3 : List.lookup "YEAR" d.cols with
      | none =>
        simp [loadStep, getCol, h1, h2, h3, bind, Except.bind, Except.isOk, Except.toBool,
          lookup_setCol _ _ _ _ (by decide : ("BOROUGH" : String) ≠ "VEHICLE_CATEGORY"),
          lookup_setCol _ _ _ _ (by decide : ("YEAR" : String) ≠ "VEHICLE_CATEGORY")]
      | some yr =>
        cases h4 : List.lookup "CONTRIBUTING FACTOR VEHICLE 1" d.cols with
        | none =>
          simp [loadStep, getCol, h1, h2, h3, h4, bind, Except.bind, Except.isOk, Except.toBool,
            lookup_setCol _ _ _ _ (by decide : ("BOROUGH" : String) ≠ "VEHICLE_CATEGORY"),
            lookup_setCol _ _ _ _ (by decide : ("YEAR" : String) ≠ "VEHICLE_CATEGORY"),
            lookup_setCol_self,
            lookup_setCol _ _ _ _
              (by decide : ("CONTRIBUTING FACTOR VEHICLE 1" : String) ≠ "VEHICLE_CATEGORY")]
        | some fac =>
          cases h5 : List.lookup "INJURY_TYPE" d.cols with
          | none =>
            simp [loadStep, getCol, h1, h2, h3, h4, h5, bind, Except.bind, Except.isOk,
              Except.toBool,
              lookup_setCol _ _ _ _ (by decide : ("BOROUGH" : String) ≠ "VEHICLE_CATEGORY"),
              lookup_setCol _ _ _ _ (by decide : ("YEAR" : String) ≠ "VEHICLE_CATEGORY"),
              lookup_setCol_self,
              lookup_setCol _ _ _ _
                (by decide : ("CONTRIBUTING FACTOR VEHICLE 1" : String) ≠ "VEHICLE_CATEGORY"),
              lookup_setCol _ _ _ _ (by decide : ("INJURY_TYPE" : String) ≠ "VEHICLE_CATEGORY")]
          | some inj =>
            rcases hmiss with hm | hm | hm | hm | hm <;> simp_all

/-- A concrete frame whose BOROUGH column is absent, for the C8
counterexample and witness. -/
def c8Frame : RawFrame :=
  RawFrame.mk [("VEHICLE TYPE CODE 1", [some "Sedan"]),
               ("YEAR", [some "2020"]),
               ("CONTRIBUTING FACTOR VEHICLE 1", [some "Unspecified"]),
               ("INJURY_TYPE", [some "MOTORIST"])]

/-- C8 counterexample: on a concrete table lacking the BOROUGH column the
load step does not substitute a default and continue - it aborts with a
KeyError, refuting the claim at this input. -/
theorem missing_column_cex : loadStep c8Frame = Except.error "KeyError: BOROUGH" := by
  rfl

/-- C8 witness: the amended theorem applied to the concrete frame lacking
BOROUGH. -/
theorem missing_column_fatal_witness : (loadStep c8Frame).isOk = false :=
  missing_column_fatal c8Frame (Or.inr (Or.inl (by rfl)))
